import Mathlib

/- Verification of the Superset "datamanage" subsystem against its
   natural-language specification: the current-user REST API
   (src/superset/views/users/api.py), the delete/update/export commands
   (src/superset/datamanage/commands/), and the v1 importer utilities
   (src/superset/datamanage/commands/importers/v1/utils.py).

   The Python sources are shallowly embedded as Lean functions.  Framework
   pieces that the commands call but that are not part of the source tree
   (the DAO layer, the security manager's ownership check, the ORM
   import/export mixin) are modelled from the specification; each such
   definition carries a doc comment beginning "Modelled from the spec:". -/

/- ------------------------------------------------------------------ -/
/- Current-user REST API: src/superset/views/users/api.py             -/
/- ------------------------------------------------------------------ -/

/-- A user account, with the fields the endpoints read: the serialized
profile fields, the `is_anonymous` flag checked by `get_me` and
`get_my_roles`, and the roles. -/
structure User where
  id : Nat
  username : String
  is_anonymous : Bool
  roles : List String
  deriving DecidableEq, Repr

/-- The serialized form of a user account produced by
`user_response_schema.dump` (`UserResponseSchema`). -/
structure UserResponse where
  id : Nat
  username : String
  roles : List String
  deriving DecidableEq, Repr

/-- Serialization `user_response_schema.dump(user)`. -/
def user_response_schema_dump (u : User) : UserResponse :=
  { id := u.id, username := u.username, roles := u.roles }

/-- Modelled from the spec: `bootstrap_user_data(g.user, include_perms=True)`
lives in `superset/views/utils.py`, which is not under src/.  Per the spec it
serializes "the current session user's profile and roles", so it is the
profile/roles serialization of the user it is given. -/
def bootstrap_user_data (u : User) : UserResponse :=
  user_response_schema_dump u

/-- The body of an HTTP response from these endpoints. -/
inductive ResponseBody where
  | empty : ResponseBody
  | single (r : UserResponse) : ResponseBody
  | many (rs : List UserResponse) : ResponseBody
  | roles_payload (r : UserResponse) : ResponseBody
  deriving DecidableEq, Repr

/-- An HTTP response: status code and body. -/
structure HttpResponse where
  status : Nat
  body : ResponseBody
  deriving DecidableEq, Repr

/-- `self.response_401()`. -/
def response_401 : HttpResponse := { status := 401, body := ResponseBody.empty }

/-- The per-request context: `g.user` from the session (`none` models a
missing / `None` user), and whether accessing the session raises
`NoAuthorizationError` (the exception caught by `get_me` / `get_my_roles`). -/
structure RequestCtx where
  user : Option User
  no_auth_error : Bool
  deriving DecidableEq, Repr

/-- The application-wide user store. -/
structure AppState where
  all_users : List User
  deriving DecidableEq, Repr

/-- Modelled from the spec: `superset.views.utils.get_all_users` is not under
src/.  Its name, and its use in `get_all` (iterated, each element serialized
with the user schema), show it returns a list of user accounts; the verdict on
the endpoint does not depend on which accounts are in the list, so it is
modelled as the application's full account list. -/
def get_all_users (st : AppState) : List User := st.all_users

/-- `CurrentUserRestApi.get_all` (`GET /users/all`): serializes every user
returned by `get_all_users` and answers 200.  The handler performs no
authentication check of any kind (the request context is not consulted). -/
def get_all (st : AppState) (_ctx : RequestCtx) : HttpResponse :=
  let users := get_all_users st
  let users_response := users.map user_response_schema_dump
  { status := 200, body := ResponseBody.many users_response }

/-- `CurrentUserRestApi.get_me` (`GET /users/`): 401 when the session raises
`NoAuthorizationError`, when `g.user` is `None`, or when the user is
anonymous; otherwise 200 with the serialized session user. -/
def get_me (ctx : RequestCtx) : HttpResponse :=
  if ctx.no_auth_error then response_401
  else
    match ctx.user with
    | none => response_401
    | some u =>
      if u.is_anonymous then response_401
      else { status := 200, body := ResponseBody.single (user_response_schema_dump u) }

/-- `CurrentUserRestApi.get_my_roles` (`GET /users/roles/`): same guard as
`get_me`, then 200 with `bootstrap_user_data(g.user)`. -/
def get_my_roles (ctx : RequestCtx) : HttpResponse :=
  if ctx.no_auth_error then response_401
  else
    match ctx.user with
    | none => response_401
    | some u =>
      if u.is_anonymous then response_401
      else { status := 200, body := ResponseBody.roles_payload (bootstrap_user_data u) }

/- ------------------------------------------------------------------ -/
/- get_sqla_type: src/superset/datamanage/commands/importers/v1/utils.py -/
/- ------------------------------------------------------------------ -/

/-- The ORM column types appearing in `type_map`. -/
inductive SqlaType where
  | BooleanT : SqlaType
  | StringT (length : Nat) : SqlaType
  | TextT : SqlaType
  | BigIntegerT : SqlaType
  | FloatT : SqlaType
  | DateT : SqlaType
  | DateTimeT (timezone : Bool) : SqlaType
  deriving DecidableEq, Repr

/-- `type_map`: native type name to ORM column type.  `DateTime()` carries
SQLAlchemy's default `timezone=False`. -/
def type_map : List (String × SqlaType) :=
  [("BOOLEAN", SqlaType.BooleanT),
   ("VARCHAR", SqlaType.StringT 255),
   ("STRING", SqlaType.StringT 255),
   ("TEXT", SqlaType.TextT),
   ("BIGINT", SqlaType.BigIntegerT),
   ("FLOAT", SqlaType.FloatT),
   ("FLOAT64", SqlaType.FloatT),
   ("DOUBLE PRECISION", SqlaType.FloatT),
   ("DATE", SqlaType.DateT),
   ("DATETIME", SqlaType.DateTimeT false),
   ("TIMESTAMP WITHOUT TIME ZONE", SqlaType.DateTimeT false),
   ("TIMESTAMP WITH TIME ZONE", SqlaType.DateTimeT true)]

/-- Python's `str.upper()` (the embedding folds case per character, which
agrees with Python on the ASCII strings these functions deal in). -/
def str_upper (s : String) : String := String.mk (s.data.map Char.toUpper)

/-- Python's `str.endswith(sfx)`. -/
def ends_with (s sfx : String) : Bool := sfx.data.isSuffixOf s.data

/-- `int(match.group(1))`: the numeric value of the captured digit run. -/
def digitsVal (ds : List Char) : Nat :=
  ds.foldl (fun acc c => 10 * acc + (c.toNat - '0'.toNat)) 0

/-- Case-insensitive match of the literal pattern characters against the head
of the input (`re.IGNORECASE`); returns the remaining input on success. -/
def matchCI : List Char → List Char → Option (List Char)
  | [], rest => some rest
  | _ :: _, [] => none
  | p :: ps, c :: cs => if c.toUpper = p.toUpper then matchCI ps cs else none

/-- Model of `VARCHAR.match(native_type)` for the compiled pattern
`re.compile(r"VARCHAR\((\d+)\)", re.IGNORECASE)`: `re.match` anchors the
pattern at the START of the string only, so input remaining after the
closing parenthesis is allowed.  Returns `int(match.group(1))` on success. -/
def varchar_match (s : String) : Option Nat :=
  match matchCI "VARCHAR(".toList s.toList with
  | none => none
  | some rest =>
    match rest.takeWhile Char.isDigit, rest.dropWhile Char.isDigit with
    | [], _ => none
    | d :: ds, ')' :: _ => some (digitsVal (d :: ds))
    | _ :: _, _ => none

/-- `get_sqla_type`: look the uppercased name up in `type_map`; otherwise try
the VARCHAR regex; otherwise raise `Exception(f"Unknown type: ...")`. -/
def get_sqla_type (native_type : String) : Except String SqlaType :=
  match type_map.lookup (str_upper native_type) with
  | some t => Except.ok t
  | none =>
    match varchar_match native_type with
    | some size => Except.ok (SqlaType.StringT size)
    | none => Except.error ("Unknown type: " ++ native_type)

/-- Case-sensitive match of literal pattern characters against the head of
the input; returns the remaining input on success. -/
def matchCS : List Char → List Char → Option (List Char)
  | [], rest => some rest
  | _ :: _, [] => none
  | p :: ps, c :: cs => if c = p then matchCS ps cs else none

/-- Stated from the claim's words (not from the source): the string is
exactly "of the form VARCHAR(n)" — the literal head `VARCHAR(`, a non-empty
digit run, and a closing parenthesis ending the string. -/
def isVarcharFormSpec (s : String) : Bool :=
  match matchCS "VARCHAR(".toList s.toList with
  | none => false
  | some rest =>
    decide (rest.takeWhile Char.isDigit ≠ []) &&
      decide (rest.dropWhile Char.isDigit = [')'])

/- ------------------------------------------------------------------ -/
/- Datamanage commands: src/superset/datamanage/commands/             -/
/- ------------------------------------------------------------------ -/

/-- A stored column or metric of a dataset: its row id and its
`column_name` / `metric_name`. -/
structure StoredRec where
  id : Nat
  name : String
  deriving DecidableEq, Repr

/-- The `SqlaTable` row as the commands read it: id, owning database id,
table name, owner user ids, and the stored columns and metrics. -/
structure SqlaTableModel where
  id : Nat
  database_id : Nat
  table_name : String
  owner_ids : List Nat
  columns : List StoredRec
  metrics : List StoredRec
  deriving DecidableEq, Repr

/-- The database session (`db.session`): the committed store and the staged
working copy.  DAO operations with `commit=False` touch only the staged copy;
`db.session.commit()` publishes it and `db.session.rollback()` discards it. -/
structure DbSession where
  committed : List SqlaTableModel
  staged : List SqlaTableModel
  deriving DecidableEq, Repr

/-- `db.session.commit()`. -/
def DbSession.commit (s : DbSession) : DbSession :=
  { committed := s.staged, staged := s.staged }

/-- `db.session.rollback()`. -/
def DbSession.rollback (s : DbSession) : DbSession :=
  { committed := s.committed, staged := s.committed }

/-- Modelled from the spec: `DatamanageDAO`
(`superset/datamanage/dao.py`) is not under src/; the spec says the commands
"delegate to a DAO" wrapping mapper queries.  `find_by_id` is the
find-by-id query against the session. -/
def DatamanageDAO.find_by_id (s : DbSession) (model_id : Nat) :
    Option SqlaTableModel :=
  s.staged.find? (fun m => m.id == model_id)

/-- Modelled from the spec: `DatamanageDAO.delete(model, commit=False)`
deletes the row through the mapper without committing — it stages the
removal in the session (cascade to association rows is the storage engine's
job) and returns the deleted model. -/
def DatamanageDAO.delete (s : DbSession) (m : SqlaTableModel) :
    SqlaTableModel × DbSession :=
  (m, { s with staged := s.staged.filter (fun r => r.id != m.id) })

/-- Modelled from the spec: `security_manager.raise_for_ownership` is not
under src/; the spec says the commands "validate ownership", so it raises
`SupersetSecurityException` exactly when the requesting user is not among the
model's owners.  Returns `true` when it raises. -/
def raise_for_ownership_raises (m : SqlaTableModel) (user_id : Nat) : Bool :=
  decide (user_id ∉ m.owner_ids)

/-- The validation errors collected by `UpdateDatamanageCommand.validate`
(the exception classes named in
`superset/datamanage/commands/exceptions.py`). -/
inductive ValidationErr where
  | DatamanageExistsValidationError (table_name : Option String) : ValidationErr
  | DatabaseChangeValidationError : ValidationErr
  | OwnersValidationError : ValidationErr
  | DatamanageColumnsDuplicateValidationError : ValidationErr
  | DatamanageColumnNotFoundValidationError : ValidationErr
  | DatamanageColumnsExistsValidationError : ValidationErr
  | DatamanageMetricsDuplicateValidationError : ValidationErr
  | DatamanageMetricsNotFoundValidationError : ValidationErr
  | DatamanageMetricsExistsValidationError : ValidationErr
  deriving DecidableEq, Repr

/-- The domain-specific exceptions the three commands raise. -/
inductive CmdError where
  | DatamanageNotFoundError : CmdError
  | DatamanageForbiddenError : CmdError
  | DatamanageDeleteFailedError : CmdError
  | DatamanageUpdateFailedError : CmdError
  | DatamanageInvalidError (errs : List ValidationErr) : CmdError
  deriving DecidableEq, Repr

/-- The two exception classes caught around the mapper delete
(`SQLAlchemyError`, `DAODeleteFailedError`).  Whether the mapper raises is
outside the embedded code, so the environment supplies it. -/
inductive MapperErr where
  | SQLAlchemyError : MapperErr
  | DAODeleteFailedError : MapperErr
  deriving DecidableEq, Repr

/-- `DeleteDatamanageCommand.validate`: populate the model by id (raising
`DatamanageNotFoundError` when absent), then check ownership (raising
`DatamanageForbiddenError` when `raise_for_ownership` raises). -/
def DeleteDatamanageCommand.validate (s : DbSession) (user_id model_id : Nat) :
    Except CmdError SqlaTableModel :=
  match DatamanageDAO.find_by_id s model_id with
  | none => Except.error CmdError.DatamanageNotFoundError
  | some m =>
    if raise_for_ownership_raises m user_id then
      Except.error CmdError.DatamanageForbiddenError
    else Except.ok m

/-- `DeleteDatamanageCommand.run`: validate, then
`DatamanageDAO.delete(model, commit=False)` followed by
`db.session.commit()`; a `SQLAlchemyError` or `DAODeleteFailedError` from the
mapper (supplied by the environment as `mapper_failure`) is answered with
`db.session.rollback()` and `DatamanageDeleteFailedError`; on success the
deleted model is returned. -/
def DeleteDatamanageCommand.run (s : DbSession) (user_id model_id : Nat)
    (mapper_failure : Option MapperErr) :
    Except CmdError SqlaTableModel × DbSession :=
  match DeleteDatamanageCommand.validate s user_id model_id with
  | Except.error e => (Except.error e, s)
  | Except.ok m =>
    let (datamanage, staged) := DatamanageDAO.delete s m
    match mapper_failure with
    | some _ => (Except.error CmdError.DatamanageDeleteFailedError, staged.rollback)
    | none => (Except.ok datamanage, staged.commit)

/-- A column or metric record in the update payload: the optional `"id"` key
and the value at the `"column_name"` / `"metric_name"` key. -/
structure PayloadRec where
  id : Option Nat
  name : String
  deriving DecidableEq, Repr

/-- The update payload (`data`) as `UpdateDatamanageCommand.validate` reads
it: `properties.get` of each key; a missing key is `none`. -/
structure UpdateProps where
  owners : Option (List Nat)
  database : Option Int
  table_name : Option String
  columns : Option (List PayloadRec)
  metrics : Option (List PayloadRec)
  deriving DecidableEq, Repr

/-- `Counter(names).items()` iterates the distinct values in first-occurrence
order; this is that key sequence. -/
def counter_keys (names : List String) : List String :=
  names.foldl (fun acc n => if n ∈ acc then acc else acc ++ [n]) []

/-- `UpdateDatamanageCommand._get_duplicates(data, key)`: the key values
whose count over the records exceeds one, in first-occurrence order.  `key`
is the `item[key]` extraction. -/
def UpdateDatamanageCommand.get_duplicates {α : Type} (data : List α)
    (key : α → String) : List String :=
  let names := data.map key
  (counter_keys names).filter (fun n => names.count n > 1)

/-- Modelled from the spec: `DatamanageDAO.validate_update_uniqueness` is not
under src/; the spec says the commands enforce "naming-uniqueness
constraints", so the new table name must not be used by a different dataset
of the same database. -/
def DatamanageDAO.validate_update_uniqueness (s : DbSession)
    (database_id model_id : Nat) (table_name : Option String) : Bool :=
  match table_name with
  | none => true
  | some name =>
    s.staged.all (fun r =>
      r.id == model_id || !(r.database_id == database_id && r.table_name == name))

/-- Modelled from the spec: `DatamanageDAO.validate_columns_exist` is not
under src/; every payload column id must be a column of the dataset. -/
def DatamanageDAO.validate_columns_exist (s : DbSession) (model_id : Nat)
    (columns_ids : List Nat) : Bool :=
  match DatamanageDAO.find_by_id s model_id with
  | none => false
  | some m => columns_ids.all (fun i => m.columns.any (fun c => c.id == i))

/-- Modelled from the spec: `DatamanageDAO.validate_columns_uniqueness` is
not under src/; every new column name must be unused on the dataset. -/
def DatamanageDAO.validate_columns_uniqueness (s : DbSession) (model_id : Nat)
    (columns_names : List String) : Bool :=
  match DatamanageDAO.find_by_id s model_id with
  | none => false
  | some m => columns_names.all (fun n => m.columns.all (fun c => !(c.name == n)))

/-- Modelled from the spec: `DatamanageDAO.validate_metrics_exist`, as for
columns. -/
def DatamanageDAO.validate_metrics_exist (s : DbSession) (model_id : Nat)
    (metrics_ids : List Nat) : Bool :=
  match DatamanageDAO.find_by_id s model_id with
  | none => false
  | some m => metrics_ids.all (fun i => m.metrics.any (fun c => c.id == i))

/-- Modelled from the spec: `DatamanageDAO.validate_metrics_uniqueness`, as
for columns. -/
def DatamanageDAO.validate_metrics_uniqueness (s : DbSession) (model_id : Nat)
    (metric_names : List String) : Bool :=
  match DatamanageDAO.find_by_id s model_id with
  | none => false
  | some m => metric_names.all (fun n => m.metrics.all (fun c => !(c.name == n)))

/-- Modelled from the spec: `UpdateMixin.populate_owners` is not under src/;
it resolves the requested owner ids to accounts and fails with a
`ValidationError` when an id is unknown.  `known_users` is the application's
user id list. -/
def populate_owners (known_users : List Nat) (owner_ids : Option (List Nat)) :
    Except ValidationErr (List Nat) :=
  match owner_ids with
  | none => Except.ok []
  | some ids =>
    if ids.all (fun i => known_users.contains i) then Except.ok ids
    else Except.error ValidationErr.OwnersValidationError

/-- In `validate`, the payload's `"database"` value (an id) is compared with
`self._model` — the `SqlaTable` object itself, not its `database_id`.  In
Python an integer never equals a model object, so `database_id != self._model`
is true for every id. -/
def int_ne_model (_database_id : Int) (_model : SqlaTableModel) : Bool := true

/-- `UpdateDatamanageCommand._validate_columns`: report duplicate column
names; otherwise check the payload ids exist and (unless `override_columns`)
the new names are unused.  `exceptions` is the accumulator list the Python
method appends to. -/
def UpdateDatamanageCommand.validate_columns (s : DbSession) (model_id : Nat)
    (override_columns : Bool) (columns : List PayloadRec)
    (exceptions : List ValidationErr) : List ValidationErr :=
  if UpdateDatamanageCommand.get_duplicates columns (fun c => c.name) ≠ [] then
    exceptions ++ [ValidationErr.DatamanageColumnsDuplicateValidationError]
  else
    let columns_ids := columns.filterMap (fun c => c.id)
    let exceptions :=
      if !DatamanageDAO.validate_columns_exist s model_id columns_ids then
        exceptions ++ [ValidationErr.DatamanageColumnNotFoundValidationError]
      else exceptions
    if !override_columns then
      let columns_names := (columns.filter (fun c => c.id.isNone)).map (fun c => c.name)
      if !DatamanageDAO.validate_columns_uniqueness s model_id columns_names then
        exceptions ++ [ValidationErr.DatamanageColumnsExistsValidationError]
      else exceptions
    else exceptions

/-- `UpdateDatamanageCommand._validate_metrics`: as for columns, but the
name-uniqueness check is not gated on `override_columns`. -/
def UpdateDatamanageCommand.validate_metrics (s : DbSession) (model_id : Nat)
    (metrics : List PayloadRec) (exceptions : List ValidationErr) :
    List ValidationErr :=
  if UpdateDatamanageCommand.get_duplicates metrics (fun c => c.name) ≠ [] then
    exceptions ++ [ValidationErr.DatamanageMetricsDuplicateValidationError]
  else
    let metrics_ids := metrics.filterMap (fun c => c.id)
    let exceptions :=
      if !DatamanageDAO.validate_metrics_exist s model_id metrics_ids then
        exceptions ++ [ValidationErr.DatamanageMetricsNotFoundValidationError]
      else exceptions
    let metric_names := (metrics.filter (fun c => c.id.isNone)).map (fun c => c.name)
    if !DatamanageDAO.validate_metrics_uniqueness s model_id metric_names then
      exceptions ++ [ValidationErr.DatamanageMetricsExistsValidationError]
    else exceptions

/-- The `exceptions` list built by `UpdateDatamanageCommand.validate` after
the model has been populated and ownership has passed: uniqueness of the
table name, the database-change check, owner resolution, then column and
metric validation (each list validated only when truthy, i.e. non-empty). -/
def UpdateDatamanageCommand.validate_exceptions (s : DbSession)
    (known_users : List Nat) (model : SqlaTableModel) (model_id : Nat)
    (props : UpdateProps) (override_columns : Bool) : List ValidationErr :=
  let exceptions : List ValidationErr := []
  let exceptions :=
    if !DatamanageDAO.validate_update_uniqueness s model.database_id model_id
        props.table_name then
      exceptions ++ [ValidationErr.DatamanageExistsValidationError props.table_name]
    else exceptions
  let exceptions :=
    match props.database with
    | some database_id =>
      if database_id != 0 && int_ne_model database_id model then
        exceptions ++ [ValidationErr.DatabaseChangeValidationError]
      else exceptions
    | none => exceptions
  let exceptions :=
    match populate_owners known_users props.owners with
    | Except.ok _ => exceptions
    | Except.error e => exceptions ++ [e]
  let exceptions :=
    match props.columns with
    | some columns =>
      if columns ≠ [] then
        UpdateDatamanageCommand.validate_columns s model_id override_columns
          columns exceptions
      else exceptions
    | none => exceptions
  let exceptions :=
    match props.metrics with
    | some metrics =>
      if metrics ≠ [] then
        UpdateDatamanageCommand.validate_metrics s model_id metrics exceptions
      else exceptions
    | none => exceptions
  exceptions

/-- `UpdateDatamanageCommand.validate`: populate the model (raising
`DatamanageNotFoundError` when absent), check ownership (raising
`DatamanageForbiddenError`), collect the validation exceptions, and raise
`DatamanageInvalidError` carrying them when any were collected. -/
def UpdateDatamanageCommand.validate (s : DbSession) (known_users : List Nat)
    (user_id model_id : Nat) (props : UpdateProps) (override_columns : Bool) :
    Except CmdError SqlaTableModel :=
  match DatamanageDAO.find_by_id s model_id with
  | none => Except.error CmdError.DatamanageNotFoundError
  | some m =>
    if raise_for_ownership_raises m user_id then
      Except.error CmdError.DatamanageForbiddenError
    else
      let exceptions :=
        UpdateDatamanageCommand.validate_exceptions s known_users m model_id
          props override_columns
      if exceptions ≠ [] then
        Except.error (CmdError.DatamanageInvalidError exceptions)
      else Except.ok m

/-- Modelled from the spec: `DatamanageDAO.update` is not under src/; it
applies the payload's properties to the model through the mapper and commits,
replacing the row in the store. -/
def DatamanageDAO.update (s : DbSession) (m : SqlaTableModel)
    (props : UpdateProps) (owners : List Nat) : SqlaTableModel × DbSession :=
  let updated : SqlaTableModel :=
    { m with
      table_name := props.table_name.getD m.table_name
      owner_ids := owners }
  let staged := s.staged.map (fun r => if r.id == m.id then updated else r)
  (updated, DbSession.commit { s with staged := staged })

/-- `UpdateDatamanageCommand.run`: validate, then delegate to
`DatamanageDAO.update`; a `DAOUpdateFailedError` (supplied by the
environment as `update_fails`) is re-raised as
`DatamanageUpdateFailedError`. -/
def UpdateDatamanageCommand.run (s : DbSession) (known_users : List Nat)
    (user_id model_id : Nat) (props : UpdateProps) (override_columns : Bool)
    (update_fails : Bool) : Except CmdError SqlaTableModel × DbSession :=
  match UpdateDatamanageCommand.validate s known_users user_id model_id props
      override_columns with
  | Except.error e => (Except.error e, s)
  | Except.ok m =>
    if update_fails then (Except.error CmdError.DatamanageUpdateFailedError, s)
    else
      let owners :=
        match populate_owners known_users props.owners with
        | Except.ok o => o
        | Except.error _ => []
      let (updated, s') := DatamanageDAO.update s m props owners
      (Except.ok updated, s')

/-- Modelled from the spec: `ExportModelsCommand.run`
(`superset/commands/export/models.py`) is not under src/.  Per the spec the
export command "validates ownership and input, delegates to a DAO": it
checks that every requested model exists (raising the command's `not_found`
error, here `DatamanageNotFoundError`) and that the requester owns each
(raising `DatamanageForbiddenError`), then yields the models to be exported
without mutating any stored state. -/
def ExportDatamanageCommand.run (s : DbSession) (user_id : Nat)
    (model_ids : List Nat) : Except CmdError (List SqlaTableModel) × DbSession :=
  let models := model_ids.filterMap (fun i => DatamanageDAO.find_by_id s i)
  if models.length != model_ids.length then
    (Except.error CmdError.DatamanageNotFoundError, s)
  else if models.any (fun m => raise_for_ownership_raises m user_id) then
    (Except.error CmdError.DatamanageForbiddenError, s)
  else (Except.ok models, s)

/-- Proof-side decomposition: the contribution of the table-name uniqueness
check to the `exceptions` list of `validate`. -/
def uniqueness_errs (s : DbSession) (model : SqlaTableModel) (model_id : Nat)
    (table_name : Option String) : List ValidationErr :=
  if !DatamanageDAO.validate_update_uniqueness s model.database_id model_id
      table_name then
    [ValidationErr.DatamanageExistsValidationError table_name]
  else []

/-- Proof-side decomposition: the contribution of the database-change check. -/
def database_errs (model : SqlaTableModel) (database : Option Int) :
    List ValidationErr :=
  match database with
  | some database_id =>
    if database_id != 0 && int_ne_model database_id model then
      [ValidationErr.DatabaseChangeValidationError]
    else []
  | none => []

/-- Proof-side decomposition: the contribution of owner resolution. -/
def owners_errs (known_users : List Nat) (owners : Option (List Nat)) :
    List ValidationErr :=
  match populate_owners known_users owners with
  | Except.ok _ => []
  | Except.error e => [e]

/-- Proof-side name for the error list `_validate_columns` produces on an
empty accumulator. -/
def columns_check_errs (s : DbSession) (model_id : Nat)
    (override_columns : Bool) (cols : List PayloadRec) : List ValidationErr :=
  UpdateDatamanageCommand.validate_columns s model_id override_columns cols []

/-- Proof-side name for the error list `_validate_metrics` produces on an
empty accumulator. -/
def metrics_check_errs (s : DbSession) (model_id : Nat)
    (ms : List PayloadRec) : List ValidationErr :=
  UpdateDatamanageCommand.validate_metrics s model_id ms []

/-- Proof-side decomposition: the contribution of column validation. -/
def columns_errs (s : DbSession) (model_id : Nat) (override_columns : Bool)
    (columns : Option (List PayloadRec)) : List ValidationErr :=
  match columns with
  | some cols =>
    if cols ≠ [] then columns_check_errs s model_id override_columns cols
    else []
  | none => []

/-- Proof-side decomposition: the contribution of metric validation. -/
def metrics_errs (s : DbSession) (model_id : Nat)
    (metrics : Option (List PayloadRec)) : List ValidationErr :=
  match metrics with
  | some ms =>
    if ms ≠ [] then metrics_check_errs s model_id ms
    else []
  | none => []

/- ------------------------------------------------------------------ -/
/- Importer and exporter field mapping:                               -/
/-   src/superset/datamanage/commands/importers/v1/utils.py and       -/
/-   src/superset/datamanage/commands/export.py                       -/
/- ------------------------------------------------------------------ -/

/-- A column or metric record of an import config: its name and its `extra`
value.  The embedding is parametric in the value type `α` together with the
`json.dumps` / `json.loads` pair, which belong to the Python standard
library, not to this repository. -/
structure ColumnRec (α : Type) where
  name : String
  extra : Option α
  deriving DecidableEq, Repr

/-- An import config as `import_datamanage` reads it: the uuid, the table
name, the three `JSON_KEYS` fields (`params`, `template_params`, `extra`),
the column and metric records, and the optional `data` URI. -/
structure DmConfig (α : Type) where
  uuid : Nat
  table_name : String
  params : Option α
  template_params : Option α
  extra : Option α
  columns : List (ColumnRec α)
  metrics : List (ColumnRec α)
  data : Option String
  deriving DecidableEq, Repr

/-- A stored column or metric row: name and json-encoded `extra`. -/
structure StoredColumn where
  name : String
  extra : Option String
  deriving DecidableEq, Repr

/-- A stored `SqlaTable` row as the importer and exporter see it: the
json-encoded field columns plus the collections and owners. -/
structure StoredDatamanage where
  id : Nat
  uuid : Nat
  table_name : String
  params : Option String
  template_params : Option String
  extra : Option String
  columns : List StoredColumn
  metrics : List StoredColumn
  owner_ids : List Nat
  deriving DecidableEq, Repr

/-- The config after the json-encoding loops of `import_datamanage`, ready
for `import_from_dict`; `id` is set from the existing row when overwriting. -/
structure StoredConfig where
  id : Option Nat
  uuid : Nat
  table_name : String
  params : Option String
  template_params : Option String
  extra : Option String
  columns : List StoredColumn
  metrics : List StoredColumn
  deriving DecidableEq, Repr

/-- The `extra` encoding applied to each record under `"metrics"` and
`"columns"`: `json.dumps` when the value is not `None`. -/
def encode_column {α : Type} (dumps : α → String) (c : ColumnRec α) :
    StoredColumn :=
  { name := c.name, extra := c.extra.map dumps }

/-- The json-encoding loops of `import_datamanage`: for each key in
`JSON_KEYS` (= `params`, `template_params`, `extra`) `json.dumps` the value
when it is not `None`, and likewise the `extra` of each column and metric. -/
def encode_config {α : Type} (dumps : α → String) (config : DmConfig α)
    (cid : Option Nat) : StoredConfig :=
  { id := cid
    uuid := config.uuid
    table_name := config.table_name
    params := config.params.map dumps
    template_params := config.template_params.map dumps
    extra := config.extra.map dumps
    columns := config.columns.map (encode_column dumps)
    metrics := config.metrics.map (encode_column dumps) }

/-- `sync = ["columns", "metrics"] if overwrite else []`. -/
def import_sync_list (overwrite : Bool) : List String :=
  if overwrite then ["columns", "metrics"] else []

/-- Modelled from the spec: the merge `import_from_dict` performs on a
collection NOT named in `sync` — existing entries are kept (updated from the
payload when present there) and new payload entries are added. -/
def merge_collection (old new : List StoredColumn) : List StoredColumn :=
  old.map (fun o =>
      match new.find? (fun n => n.name == o.name) with
      | some n => n
      | none => o) ++
    new.filter (fun n => old.all (fun o => !(o.name == n.name)))

/-- A fresh primary key for a new row. -/
def next_row_id (rows : List StoredDatamanage) : Nat :=
  rows.foldl (fun acc r => max acc r.id) 0 + 1

/-- Modelled from the spec: `SqlaTable.import_from_dict` (the ORM
import/export mixin) is not under src/.  It upserts the row matching the
config's uuid, writing the encoded fields; collections named in `sync` are
synchronized with the payload — entries absent from the incoming payload are
removed — while collections not named keep their existing entries. -/
def import_from_dict (rows : List StoredDatamanage) (c : StoredConfig)
    (sync : List String) : StoredDatamanage × List StoredDatamanage :=
  match rows.find? (fun r => r.uuid == c.uuid) with
  | some existing =>
    let row : StoredDatamanage :=
      { id := existing.id
        uuid := c.uuid
        table_name := c.table_name
        params := c.params
        template_params := c.template_params
        extra := c.extra
        columns :=
          if "columns" ∈ sync then c.columns
          else merge_collection existing.columns c.columns
        metrics :=
          if "metrics" ∈ sync then c.metrics
          else merge_collection existing.metrics c.metrics
        owner_ids := existing.owner_ids }
    (row, rows.map (fun r => if r.uuid == c.uuid then row else r))
  | none =>
    let row : StoredDatamanage :=
      { id := c.id.getD (next_row_id rows)
        uuid := c.uuid
        table_name := c.table_name
        params := c.params
        template_params := c.template_params
        extra := c.extra
        columns := c.columns
        metrics := c.metrics
        owner_ids := [] }
    (row, rows ++ [row])

/-- The body of `import_datamanage` past the early return: encode the json
fields, compute `sync`, upsert through `import_from_dict`, load the CSV data
when a truthy `data` URI is present and the backing table is missing (or
`force_data` is set), and append `g.user` to the row's owners when a user is
bound.  Returns the resulting row, the row store, and the list of tables CSV
data was loaded into. -/
def import_datamanage_body {α : Type} (dumps : α → String)
    (rows : List StoredDatamanage) (config : DmConfig α) (cid : Option Nat)
    (overwrite force_data : Bool) (g_user : Option Nat)
    (table_exists : Bool) :
    StoredDatamanage × List StoredDatamanage × List String :=
  let c := encode_config dumps config cid
  let sync := import_sync_list overwrite
  let (datamanage, rows') := import_from_dict rows c sync
  let data_uri := config.data
  let loaded :=
    match data_uri with
    | some uri =>
      if uri != "" && (!table_exists || force_data) then [datamanage.table_name]
      else []
    | none => []
  match g_user with
  | some u =>
    let dm' := { datamanage with owner_ids := datamanage.owner_ids ++ [u] }
    (dm', rows'.map (fun r => if r.uuid == dm'.uuid then dm' else r), loaded)
  | none => (datamanage, rows', loaded)

/-- `import_datamanage`: when a row with the config's uuid exists and
`overwrite` is false, return it immediately (touching nothing); otherwise run
the import body, reusing the existing row's id when overwriting. -/
def import_datamanage {α : Type} (dumps : α → String)
    (rows : List StoredDatamanage) (config : DmConfig α)
    (overwrite force_data : Bool) (g_user : Option Nat)
    (table_exists : Bool) :
    StoredDatamanage × List StoredDatamanage × List String :=
  match rows.find? (fun r => r.uuid == config.uuid) with
  | some existing =>
    if !overwrite then (existing, rows, [])
    else
      import_datamanage_body dumps rows config (some existing.id) overwrite
        force_data g_user table_exists
  | none =>
    import_datamanage_body dumps rows config none overwrite force_data g_user
      table_exists

/-- `load_data`: `urlopen` the URI, gzip-decompress exactly when the URI ends
with ".gz", parse the stream as UTF-8 CSV, and write the frame to the
datamanage's backing table.  `urlopen`, gzip and the CSV reader are library
functions, supplied as parameters over byte streams. -/
def load_data (urlopen : String → List Nat) (gunzip : List Nat → List Nat)
    (read_csv : List Nat → List (List String)) (data_uri : String)
    (datamanage_table_name : String) : String × List (List String) :=
  let data := urlopen data_uri
  let data := if ends_with data_uri ".gz" then gunzip data else data
  let df := read_csv data
  (datamanage_table_name, df)

/-- A payload field value after the exporter's decoding loop: either the
decoded object or the stored string kept as-is (when falsy or not valid
JSON). -/
inductive ExportVal (α : Type) where
  | raw (s : String) : ExportVal α
  | val (v : α) : ExportVal α
  deriving DecidableEq, Repr

/-- The decoding `ExportDatamanageCommand._export` applies to each
`JSON_KEYS` payload entry: skip falsy values (`if payload.get(key):`),
otherwise `json.loads`, keeping the string on `JSONDecodeError`. -/
def decode_field {α : Type} (loads : String → Option α) :
    Option String → Option (ExportVal α)
  | none => none
  | some st =>
    if st == "" then some (ExportVal.raw st)
    else
      match loads st with
      | some v => some (ExportVal.val v)
      | none => some (ExportVal.raw st)

/-- The decoding applied to the `extra` of each record under `"metrics"` and
`"columns"` of the export payload. -/
def decode_column {α : Type} (loads : String → Option α) (c : StoredColumn) :
    String × Option (ExportVal α) :=
  (c.name, decode_field loads c.extra)

/-- The json-typed fields of the export payload after `_export`'s decoding
loops. -/
structure ExportedFields (α : Type) where
  params : Option (ExportVal α)
  template_params : Option (ExportVal α)
  extra : Option (ExportVal α)
  columns : List (String × Option (ExportVal α))
  metrics : List (String × Option (ExportVal α))
  deriving DecidableEq, Repr

/-- The field-decoding part of `ExportDatamanageCommand._export` on a stored
row: `json.loads` each truthy `JSON_KEYS` field and each truthy column and
metric `extra`. -/
def export_payload_fields {α : Type} (loads : String → Option α)
    (m : StoredDatamanage) : ExportedFields α :=
  { params := decode_field loads m.params
    template_params := decode_field loads m.template_params
    extra := decode_field loads m.extra
    columns := m.columns.map (decode_column loads)
    metrics := m.metrics.map (decode_column loads) }

/- ------------------------------------------------------------------ -/
/- Theorems                                                           -/
/- ------------------------------------------------------------------ -/

/-- `matchCI` succeeds exactly on inputs that start with a case-insensitive
copy of the pattern, and returns what follows that copy. -/
theorem matchCI_eq_some_iff (ps : List Char) (cs rest : List Char) :
    matchCI ps cs = some rest ↔
      ∃ pre, cs = pre ++ rest ∧ pre.map Char.toUpper = ps.map Char.toUpper := by
  induction ps generalizing cs with
  | nil =>
    constructor
    · intro h
      have h' : cs = rest := by simpa [matchCI] using h
      exact ⟨[], by simp [h'], by simp⟩
    · rintro ⟨pre, hcs, hmap⟩
      have hlen : pre.length = 0 := by simpa using congrArg List.length hmap
      have hpre : pre = [] := List.length_eq_zero.mp hlen
      subst hpre
      simp only [List.nil_append] at hcs
      simp [matchCI, hcs]
  | cons p ps ih =>
    cases cs with
    | nil =>
      constructor
      · intro h
        simp [matchCI] at h
      · rintro ⟨pre, hcs, hmap⟩
        cases pre with
        | nil =>
          have hlen := congrArg List.length hmap
          simp at hlen
        | cons a l => simp at hcs
    | cons c cs' =>
      by_cases hc : c.toUpper = p.toUpper
      · rw [show matchCI (p :: ps) (c :: cs') = matchCI ps cs' from by
          simp [matchCI, hc]]
        rw [ih]
        constructor
        · rintro ⟨pre, hcs, hmap⟩
          exact ⟨c :: pre, by simp [hcs], by simp [hmap, hc]⟩
        · rintro ⟨pre, hcs, hmap⟩
          cases pre with
          | nil =>
            exfalso
            have hlen := congrArg List.length hmap
            simp at hlen
          | cons a l =>
            simp only [List.cons_append, List.cons.injEq] at hcs
            simp only [List.map_cons, List.cons.injEq] at hmap
            exact ⟨l, hcs.2, hmap.2⟩
      · constructor
        · intro h
          exfalso
          simp [matchCI, hc] at h
        · rintro ⟨pre, hcs, hmap⟩
          exfalso
          cases pre with
          | nil =>
            have hlen := congrArg List.length hmap
            simp at hlen
          | cons a l =>
            simp only [List.cons_append, List.cons.injEq] at hcs
            simp only [List.map_cons, List.cons.injEq] at hmap
            exact hc (by rw [hcs.1]; exact hmap.1)

/-- Splitting a list that is an all-true run followed by a stopping head. -/
theorem takeWhile_dropWhile_of_run (p : Char → Bool) (ds rest : List Char)
    (hall : ds.all p = true) (hstop : rest ≠ [] → p rest.headI = false) :
    (ds ++ rest).takeWhile p = ds ∧ (ds ++ rest).dropWhile p = rest := by
  induction ds with
  | nil =>
    cases rest with
    | nil => simp
    | cons r rs =>
      have : p r = false := by simpa using hstop (by simp)
      simp [List.takeWhile, List.dropWhile, this]
  | cons d ds ih =>
    simp only [List.all_cons, Bool.and_eq_true] at hall
    have h := ih hall.2
    simp [List.takeWhile, List.dropWhile, hall.1, h.1, h.2]

/-- Characterization of the start-anchored VARCHAR regex: it yields `n`
exactly when the string decomposes as a case-insensitive `VARCHAR(` head, a
non-empty digit run with value `n`, a closing parenthesis, and an arbitrary
remainder (which the anchored `re.match` never inspects). -/
theorem varchar_match_eq_some_iff (s : String) (n : Nat) :
    varchar_match s = some n ↔
      ∃ pre ds rest, s.data = pre ++ (ds ++ ')' :: rest) ∧
        pre.map Char.toUpper = "VARCHAR(".data ∧
        ds ≠ [] ∧ ds.all Char.isDigit = true ∧ digitsVal ds = n := by
  have hpat : "VARCHAR(".data.map Char.toUpper = "VARCHAR(".data := by decide
  constructor
  · intro h
    unfold varchar_match at h
    split at h
    · exact absurd h (by simp)
    · rename_i rest0 hm
      split at h
      · exact absurd h (by simp)
      · rename_i d ds' tail ht hd
        obtain ⟨pre, hcs, hmap⟩ := (matchCI_eq_some_iff _ _ _).1 hm
        refine ⟨pre, d :: ds', tail, ?_, ?_, by simp, ?_, by
          simpa using h⟩
        · have hjoin : rest0 = (d :: ds') ++ ')' :: tail := by
            rw [← ht, ← hd]
            exact (List.takeWhile_append_dropWhile _ _).symm
          rw [show s.data = s.toList from rfl, hcs, hjoin]
        · calc pre.map Char.toUpper
              = "VARCHAR(".toList.map Char.toUpper := hmap
            _ = "VARCHAR(".data := hpat
        · have hmem : ∀ a ∈ rest0.takeWhile Char.isDigit, Char.isDigit a :=
            fun a ha => List.mem_takeWhile_imp ha
          rw [ht] at hmem
          exact List.all_eq_true.mpr hmem
      · exact absurd h (by simp)
  · rintro ⟨pre, ds, rest, hcs, hmap, hne, hall, hval⟩
    have hm : matchCI "VARCHAR(".toList s.toList = some (ds ++ ')' :: rest) := by
      refine (matchCI_eq_some_iff _ _ _).2 ⟨pre, hcs, ?_⟩
      rw [hmap]
      exact hpat.symm
    have hsplit := takeWhile_dropWhile_of_run Char.isDigit ds (')' :: rest) hall
      (by intro _; show Char.isDigit ')' = false; decide)
    cases ds with
    | nil => exact absurd rfl hne
    | cons d ds' =>
      unfold varchar_match
      rw [hm]
      simp only [List.cons_append] at hsplit
      simp [hsplit.1, hsplit.2, hval]

/-- Claim C1: falsified by the code.  `GET /users/all` performs no
authentication check and serializes every account returned by
`get_all_users`, contradicting both the claim and the endpoint's own
docstring ("Returns the user roles corresponding to the agent making the
request, or returns a 401 error if the user is unauthenticated").  At the
failing input — an unauthenticated request (`g.user` is `None`) in an
application with accounts alice and bob — `get_all` answers 200 with both
accounts' data instead of 401, while `get_me` and `get_my_roles` on the very
same request do answer 401. -/
theorem C1_get_all_unauthenticated_leak :
    get_all
        { all_users :=
            [{ id := 1, username := "alice", is_anonymous := false, roles := ["Admin"] },
             { id := 2, username := "bob", is_anonymous := false, roles := ["Gamma"] }] }
        { user := none, no_auth_error := false } =
      { status := 200,
        body := ResponseBody.many
          [{ id := 1, username := "alice", roles := ["Admin"] },
           { id := 2, username := "bob", roles := ["Gamma"] }] } ∧
    get_me { user := none, no_auth_error := false } = response_401 ∧
    get_my_roles { user := none, no_auth_error := false } = response_401 :=
  ⟨rfl, rfl, rfl⟩

/-- Claim C6 (counterexample): the claim says every string that is neither a
`type_map` key (up to case) nor of the form `VARCHAR(n)` makes
`get_sqla_type` raise.  The string "VARCHAR(7)ABC" is such a string, yet
`get_sqla_type` returns `String(7)`, because `re.match` anchors the pattern
only at the start and ignores the trailing "ABC". -/
theorem C6_get_sqla_type_counterexample :
    get_sqla_type "VARCHAR(7)ABC" = Except.ok (SqlaType.StringT 7) ∧
    isVarcharFormSpec "VARCHAR(7)ABC" = false ∧
    type_map.lookup (str_upper "VARCHAR(7)ABC") = none :=
  ⟨rfl, by decide, rfl⟩

/-- Claim C6 (amended): `get_sqla_type` returns the mapped ORM type for every
string whose uppercase form is a key of `type_map` (so that lookup is
case-insensitive); otherwise, for every string that merely BEGINS with a
case-insensitive `VARCHAR(n)` head (the regex is only anchored at the start,
so trailing characters are permitted) it returns a String type of length `n`;
and for every remaining string it raises an exception. -/
theorem C6_get_sqla_type_amended (s : String) :
    (∀ t, type_map.lookup (str_upper s) = some t → get_sqla_type s = Except.ok t) ∧
    (type_map.lookup (str_upper s) = none →
      ((∀ pre ds rest, s.data = pre ++ (ds ++ ')' :: rest) →
          pre.map Char.toUpper = "VARCHAR(".data → ds ≠ [] →
          ds.all Char.isDigit = true →
          get_sqla_type s = Except.ok (SqlaType.StringT (digitsVal ds))) ∧
       ((¬ ∃ pre ds rest, s.data = pre ++ (ds ++ ')' :: rest) ∧
            pre.map Char.toUpper = "VARCHAR(".data ∧ ds ≠ [] ∧
            ds.all Char.isDigit = true) →
          get_sqla_type s = Except.error ("Unknown type: " ++ s)))) := by
  refine ⟨?_, fun hlook => ⟨?_, ?_⟩⟩
  · intro t ht
    unfold get_sqla_type
    rw [ht]
  · intro pre ds rest hcs hmap hne hall
    have hv : varchar_match s = some (digitsVal ds) :=
      (varchar_match_eq_some_iff s _).2 ⟨pre, ds, rest, hcs, hmap, hne, hall, rfl⟩
    unfold get_sqla_type
    rw [hlook, hv]
  · intro hno
    cases hv : varchar_match s with
    | none =>
      unfold get_sqla_type
      rw [hlook, hv]
    | some n =>
      exfalso
      obtain ⟨pre, ds, rest, hcs, hmap, hne, hall, _⟩ :=
        (varchar_match_eq_some_iff s n).1 hv
      exact hno ⟨pre, ds, rest, hcs, hmap, hne, hall⟩

/-- Claim C6 (witness for the amended theorem): "varchar(12)" is not a key of
`type_map` but starts with a case-insensitive VARCHAR head capturing 12. -/
theorem C6_get_sqla_type_amended_witness :
    get_sqla_type "varchar(12)" = Except.ok (SqlaType.StringT 12) := by
  have h := ((C6_get_sqla_type_amended "varchar(12)").2 (by rfl)).1
      "varchar(".data ['1', '2'] [] (by decide) (by decide) (by decide) (by decide)
  have hv : digitsVal ['1', '2'] = 12 := by decide
  rw [hv] at h
  exact h


/-- `_validate_columns` only ever appends to the accumulator it is given. -/
theorem validate_columns_append (s : DbSession) (model_id : Nat)
    (override_columns : Bool) (cols : List PayloadRec)
    (exceptions : List ValidationErr) :
    UpdateDatamanageCommand.validate_columns s model_id override_columns cols
        exceptions =
      exceptions ++ columns_check_errs s model_id override_columns cols := by
  unfold columns_check_errs UpdateDatamanageCommand.validate_columns
  dsimp only
  split_ifs <;> simp

/-- `_validate_metrics` only ever appends to the accumulator it is given. -/
theorem validate_metrics_append (s : DbSession) (model_id : Nat)
    (ms : List PayloadRec) (exceptions : List ValidationErr) :
    UpdateDatamanageCommand.validate_metrics s model_id ms exceptions =
      exceptions ++ metrics_check_errs s model_id ms := by
  unfold metrics_check_errs UpdateDatamanageCommand.validate_metrics
  dsimp only
  split_ifs <;> simp

/-- The exception list of `validate` decomposes into the contributions of its
five checks, in source order. -/
theorem validate_exceptions_decomp (s : DbSession) (known_users : List Nat)
    (model : SqlaTableModel) (model_id : Nat) (props : UpdateProps)
    (override_columns : Bool) :
    UpdateDatamanageCommand.validate_exceptions s known_users model model_id
        props override_columns =
      uniqueness_errs s model model_id props.table_name ++
        database_errs model props.database ++
        owners_errs known_users props.owners ++
        columns_errs s model_id override_columns props.columns ++
        metrics_errs s model_id props.metrics := by
  obtain ⟨ow, db, tn, cls, mts⟩ := props
  unfold UpdateDatamanageCommand.validate_exceptions uniqueness_errs
    database_errs owners_errs columns_errs metrics_errs
  dsimp only
  cases db <;> cases cls <;> cases mts <;>
    cases hpo : populate_owners known_users ow <;>
      dsimp only <;> split_ifs <;>
        simp [validate_columns_append, validate_metrics_append]

/-- Folding the `Counter`-key accumulator collects exactly the elements seen. -/
theorem mem_counter_keys_foldl (names : List String) (acc : List String)
    (n : String) :
    n ∈ names.foldl (fun acc m => if m ∈ acc then acc else acc ++ [m]) acc ↔
      n ∈ acc ∨ n ∈ names := by
  induction names generalizing acc with
  | nil => simp
  | cons m ms ih =>
    simp only [List.foldl_cons]
    rw [ih]
    by_cases hm : m ∈ acc
    · rw [if_pos hm]
      constructor
      · rintro (h | h)
        · exact Or.inl h
        · exact Or.inr (List.mem_cons_of_mem m h)
      · rintro (h | h)
        · exact Or.inl h
        · rcases List.mem_cons.mp h with h | h
          · rw [h]; exact Or.inl hm
          · exact Or.inr h
    · rw [if_neg hm]
      simp only [List.mem_append, List.mem_singleton, List.mem_cons]
      tauto

/-- `Counter(names)` has exactly the members of `names` as keys. -/
theorem mem_counter_keys (names : List String) (n : String) :
    n ∈ counter_keys names ↔ n ∈ names := by
  unfold counter_keys
  rw [mem_counter_keys_foldl]
  simp

/-- `_get_duplicates` holds exactly the key values of count above one. -/
theorem mem_get_duplicates {α : Type} (data : List α) (key : α → String)
    (n : String) :
    n ∈ UpdateDatamanageCommand.get_duplicates data key ↔
      1 < (data.map key).count n := by
  unfold UpdateDatamanageCommand.get_duplicates
  dsimp only
  rw [List.mem_filter, mem_counter_keys]
  constructor
  · rintro ⟨-, h⟩
    simpa using h
  · intro h
    exact ⟨List.count_pos_iff.mp (Nat.lt_trans Nat.one_pos h), by simpa using h⟩

/-- `_validate_columns` contributes only its three column errors. -/
theorem mem_columns_check_errs (s : DbSession) (model_id : Nat)
    (override_columns : Bool) (cols : List PayloadRec) (e : ValidationErr)
    (he : e ∈ columns_check_errs s model_id override_columns cols) :
    e = ValidationErr.DatamanageColumnsDuplicateValidationError ∨
      e = ValidationErr.DatamanageColumnNotFoundValidationError ∨
      e = ValidationErr.DatamanageColumnsExistsValidationError := by
  unfold columns_check_errs UpdateDatamanageCommand.validate_columns at he
  dsimp only at he
  split_ifs at he <;> simp at he <;> tauto

/-- `_validate_metrics` contributes only its three metric errors. -/
theorem mem_metrics_check_errs (s : DbSession) (model_id : Nat)
    (ms : List PayloadRec) (e : ValidationErr)
    (he : e ∈ metrics_check_errs s model_id ms) :
    e = ValidationErr.DatamanageMetricsDuplicateValidationError ∨
      e = ValidationErr.DatamanageMetricsNotFoundValidationError ∨
      e = ValidationErr.DatamanageMetricsExistsValidationError := by
  unfold metrics_check_errs UpdateDatamanageCommand.validate_metrics at he
  dsimp only at he
  split_ifs at he <;> simp at he <;> tauto

/-- The duplicate-columns error is reported precisely when `_get_duplicates`
is non-empty on the column payload. -/
theorem columns_check_errs_dup_iff (s : DbSession) (model_id : Nat)
    (override_columns : Bool) (cols : List PayloadRec) :
    ValidationErr.DatamanageColumnsDuplicateValidationError ∈
        columns_check_errs s model_id override_columns cols ↔
      UpdateDatamanageCommand.get_duplicates cols (fun c => c.name) ≠ [] := by
  unfold columns_check_errs UpdateDatamanageCommand.validate_columns
  dsimp only
  split_ifs with h1 h2 h3 <;> simp [h1]

/-- The duplicate-metrics error is reported precisely when `_get_duplicates`
is non-empty on the metric payload. -/
theorem metrics_check_errs_dup_iff (s : DbSession) (model_id : Nat)
    (ms : List PayloadRec) :
    ValidationErr.DatamanageMetricsDuplicateValidationError ∈
        metrics_check_errs s model_id ms ↔
      UpdateDatamanageCommand.get_duplicates ms (fun c => c.name) ≠ [] := by
  unfold metrics_check_errs UpdateDatamanageCommand.validate_metrics
  dsimp only
  split_ifs with h1 h2 h3 <;> simp [h1]

/-- The uniqueness check contributes only the exists error. -/
theorem mem_uniqueness_errs (s : DbSession) (model : SqlaTableModel)
    (model_id : Nat) (tn : Option String) (e : ValidationErr)
    (he : e ∈ uniqueness_errs s model model_id tn) :
    e = ValidationErr.DatamanageExistsValidationError tn := by
  unfold uniqueness_errs at he
  split_ifs at he <;> simp at he
  exact he

/-- The database-change check contributes only the database-change error. -/
theorem mem_database_errs (model : SqlaTableModel) (dbopt : Option Int)
    (e : ValidationErr) (he : e ∈ database_errs model dbopt) :
    e = ValidationErr.DatabaseChangeValidationError := by
  unfold database_errs at he
  cases dbopt with
  | none => simp at he
  | some d =>
    dsimp only at he
    split_ifs at he <;> simp at he
    exact he

/-- `populate_owners` fails only with the owners validation error. -/
theorem populate_owners_error_eq (known_users : List Nat)
    (ow : Option (List Nat)) (e : ValidationErr)
    (h : populate_owners known_users ow = Except.error e) :
    e = ValidationErr.OwnersValidationError := by
  unfold populate_owners at h
  cases ow with
  | none => simp at h
  | some ids =>
    dsimp only at h
    split_ifs at h
    simp at h
    exact h.symm

/-- Owner resolution contributes only the owners validation error. -/
theorem mem_owners_errs (known_users : List Nat) (ow : Option (List Nat))
    (e : ValidationErr) (he : e ∈ owners_errs known_users ow) :
    e = ValidationErr.OwnersValidationError := by
  unfold owners_errs at he
  cases hpo : populate_owners known_users ow with
  | ok _ => rw [hpo] at he; simp at he
  | error e' =>
    rw [hpo] at he
    simp at he
    rw [he]
    exact populate_owners_error_eq known_users ow e' hpo

/-- Column validation (option level) contributes only column errors. -/
theorem mem_columns_errs (s : DbSession) (model_id : Nat)
    (override_columns : Bool) (copt : Option (List PayloadRec))
    (e : ValidationErr) (he : e ∈ columns_errs s model_id override_columns copt) :
    e = ValidationErr.DatamanageColumnsDuplicateValidationError ∨
      e = ValidationErr.DatamanageColumnNotFoundValidationError ∨
      e = ValidationErr.DatamanageColumnsExistsValidationError := by
  unfold columns_errs at he
  cases copt with
  | none => simp at he
  | some cols =>
    dsimp only at he
    split_ifs at he
    · exact mem_columns_check_errs s model_id override_columns cols e he
    · simp at he

/-- Metric validation (option level) contributes only metric errors. -/
theorem mem_metrics_errs (s : DbSession) (model_id : Nat)
    (mopt : Option (List PayloadRec)) (e : ValidationErr)
    (he : e ∈ metrics_errs s model_id mopt) :
    e = ValidationErr.DatamanageMetricsDuplicateValidationError ∨
      e = ValidationErr.DatamanageMetricsNotFoundValidationError ∨
      e = ValidationErr.DatamanageMetricsExistsValidationError := by
  unfold metrics_errs at he
  cases mopt with
  | none => simp at he
  | some ms =>
    dsimp only at he
    split_ifs at he
    · exact mem_metrics_check_errs s model_id ms e he
    · simp at he

/-- The duplicate-columns error at option level. -/
theorem columns_errs_dup_iff (s : DbSession) (model_id : Nat)
    (override_columns : Bool) (copt : Option (List PayloadRec)) :
    ValidationErr.DatamanageColumnsDuplicateValidationError ∈
        columns_errs s model_id override_columns copt ↔
      ∃ cols, copt = some cols ∧ cols ≠ [] ∧
        UpdateDatamanageCommand.get_duplicates cols (fun c => c.name) ≠ [] := by
  unfold columns_errs
  cases copt with
  | none => simp
  | some cols =>
    dsimp only
    split_ifs with h1
    · rw [columns_check_errs_dup_iff]
      constructor
      · intro h
        exact ⟨cols, rfl, h1, h⟩
      · rintro ⟨cols', hc, -, hd⟩
        cases hc
        exact hd
    · simp only [List.not_mem_nil, false_iff]
      rintro ⟨cols', hc, hne, -⟩
      cases hc
      exact h1 hne

/-- The duplicate-metrics error at option level. -/
theorem metrics_errs_dup_iff (s : DbSession) (model_id : Nat)
    (mopt : Option (List PayloadRec)) :
    ValidationErr.DatamanageMetricsDuplicateValidationError ∈
        metrics_errs s model_id mopt ↔
      ∃ ms, mopt = some ms ∧ ms ≠ [] ∧
        UpdateDatamanageCommand.get_duplicates ms (fun c => c.name) ≠ [] := by
  unfold metrics_errs
  cases mopt with
  | none => simp
  | some ms =>
    dsimp only
    split_ifs with h1
    · rw [metrics_check_errs_dup_iff]
      constructor
      · intro h
        exact ⟨ms, rfl, h1, h⟩
      · rintro ⟨ms', hc, -, hd⟩
        cases hc
        exact hd
    · simp only [List.not_mem_nil, false_iff]
      rintro ⟨ms', hc, hne, -⟩
      cases hc
      exact h1 hne

/-- The database-change error appears exactly for a present, truthy
`"database"` value. -/
theorem database_errs_mem_iff (model : SqlaTableModel) (dbopt : Option Int) :
    ValidationErr.DatabaseChangeValidationError ∈ database_errs model dbopt ↔
      ∃ d, dbopt = some d ∧ d ≠ 0 := by
  unfold database_errs int_ne_model
  cases dbopt with
  | none => simp
  | some d =>
    dsimp only
    split_ifs with h1
    · simp only [List.mem_singleton, true_iff]
      refine ⟨d, rfl, ?_⟩
      simpa using (Bool.and_eq_true _ _).mp h1 |>.1
    · simp only [List.not_mem_nil, false_iff]
      rintro ⟨d', hd, hne⟩
      cases hd
      exact h1 (by simpa using hne)

/-- Claim C4: duplicate detection is by counting — `_get_duplicates` returns
exactly the key values occurring in more than one record (and is empty iff
all key values are distinct), and `validate` reports the duplicate-name
validation error for columns (resp. metrics) precisely when the duplicate
set of the supplied column (resp. metric) payload is non-empty. -/
theorem C4_duplicate_detection {α : Type} (data : List α) (key : α → String)
    (s : DbSession) (known_users : List Nat) (model : SqlaTableModel)
    (model_id : Nat) (props : UpdateProps) (override_columns : Bool) :
    (∀ n, n ∈ UpdateDatamanageCommand.get_duplicates data key ↔
        1 < (data.map key).count n) ∧
    (UpdateDatamanageCommand.get_duplicates data key = [] ↔
      (data.map key).Nodup) ∧
    (ValidationErr.DatamanageColumnsDuplicateValidationError ∈
        UpdateDatamanageCommand.validate_exceptions s known_users model
          model_id props override_columns ↔
      ∃ cols, props.columns = some cols ∧ cols ≠ [] ∧
        UpdateDatamanageCommand.get_duplicates cols (fun c => c.name) ≠ []) ∧
    (ValidationErr.DatamanageMetricsDuplicateValidationError ∈
        UpdateDatamanageCommand.validate_exceptions s known_users model
          model_id props override_columns ↔
      ∃ ms, props.metrics = some ms ∧ ms ≠ [] ∧
        UpdateDatamanageCommand.get_duplicates ms (fun c => c.name) ≠ []) := by
  refine ⟨mem_get_duplicates data key, ?_, ?_, ?_⟩
  · rw [List.eq_nil_iff_forall_not_mem]
    constructor
    · intro h
      rw [List.nodup_iff_count_le_one]
      intro a
      by_contra hc
      push_neg at hc
      exact h a ((mem_get_duplicates data key a).mpr hc)
    · intro h n hn
      have h1 := (mem_get_duplicates data key n).mp hn
      have h2 := List.nodup_iff_count_le_one.mp h n
      omega
  · rw [validate_exceptions_decomp]
    simp only [List.mem_append]
    constructor
    · rintro ((((h | h) | h) | h) | h)
      · cases mem_uniqueness_errs _ _ _ _ _ h
      · cases mem_database_errs _ _ _ h
      · cases mem_owners_errs _ _ _ h
      · exact (columns_errs_dup_iff _ _ _ _).mp h
      · rcases mem_metrics_errs _ _ _ _ h with h' | h' | h' <;> cases h'
    · intro hex
      exact Or.inl (Or.inr ((columns_errs_dup_iff _ _ _ _).mpr hex))
  · rw [validate_exceptions_decomp]
    simp only [List.mem_append]
    constructor
    · rintro ((((h | h) | h) | h) | h)
      · cases mem_uniqueness_errs _ _ _ _ _ h
      · cases mem_database_errs _ _ _ h
      · cases mem_owners_errs _ _ _ h
      · rcases mem_columns_errs _ _ _ _ _ h with h' | h' | h' <;> cases h'
      · exact (metrics_errs_dup_iff _ _ _).mp h
    · intro hex
      exact Or.inr ((metrics_errs_dup_iff _ _ _).mpr hex)

/-- Claim C9: the database-change validation error is appended exactly when
the payload's `"database"` value is present and truthy (non-zero) — in
particular even when it equals the dataset's current `database_id` — because
the id is compared against the model object itself (`int_ne_model`, always
true), and never when the field is absent or falsy. -/
theorem C9_database_change (s : DbSession) (known_users : List Nat)
    (model : SqlaTableModel) (model_id : Nat) (props : UpdateProps)
    (override_columns : Bool) :
    (ValidationErr.DatabaseChangeValidationError ∈
        UpdateDatamanageCommand.validate_exceptions s known_users model
          model_id props override_columns ↔
      ∃ d, props.database = some d ∧ d ≠ 0) ∧
    (props.database = some (Int.ofNat model.database_id) →
      (model.database_id : Int) ≠ 0 →
      ValidationErr.DatabaseChangeValidationError ∈
        UpdateDatamanageCommand.validate_exceptions s known_users model
          model_id props override_columns) := by
  have hiff : ValidationErr.DatabaseChangeValidationError ∈
      UpdateDatamanageCommand.validate_exceptions s known_users model
        model_id props override_columns ↔
      ∃ d, props.database = some d ∧ d ≠ 0 := by
    rw [validate_exceptions_decomp]
    simp only [List.mem_append]
    constructor
    · rintro ((((h | h) | h) | h) | h)
      · cases mem_uniqueness_errs _ _ _ _ _ h
      · exact (database_errs_mem_iff _ _).mp h
      · cases mem_owners_errs _ _ _ h
      · rcases mem_columns_errs _ _ _ _ _ h with h' | h' | h' <;> cases h'
      · rcases mem_metrics_errs _ _ _ _ h with h' | h' | h' <;> cases h'
    · intro hex
      exact Or.inl (Or.inl (Or.inl (Or.inr ((database_errs_mem_iff _ _).mpr hex))))
  exact ⟨hiff, fun hdb hne => hiff.mpr ⟨Int.ofNat model.database_id, hdb, hne⟩⟩

/-- Claim C9 (witness): a payload whose `"database"` id equals the dataset's
own `database_id` (5) still gets the database-change error. -/
theorem C9_database_change_witness :
    ValidationErr.DatabaseChangeValidationError ∈
      UpdateDatamanageCommand.validate_exceptions
        { committed := [], staged := [] } []
        { id := 1, database_id := 5, table_name := "t", owner_ids := [7],
          columns := [], metrics := [] } 1
        { owners := none, database := some 5, table_name := none,
          columns := none, metrics := none } false :=
  (C9_database_change { committed := [], staged := [] } []
      { id := 1, database_id := 5, table_name := "t", owner_ids := [7],
        columns := [], metrics := [] } 1
      { owners := none, database := some 5, table_name := none,
        columns := none, metrics := none } false).2 rfl (by decide)

/-- Claim C2: each of the delete, update and export commands validates
ownership — for every session state holding the dataset and every requesting
user who is not among its owners, running the command raises
`DatamanageForbiddenError` and leaves the session (both its committed store
and its staged copy) untouched. -/
theorem C2_ownership_validated (s : DbSession) (known_users : List Nat)
    (user_id model_id : Nat) (props : UpdateProps) (override_columns : Bool)
    (mapper_failure : Option MapperErr) (update_fails : Bool)
    (m : SqlaTableModel)
    (hfind : DatamanageDAO.find_by_id s model_id = some m)
    (hown : user_id ∉ m.owner_ids) :
    DeleteDatamanageCommand.run s user_id model_id mapper_failure =
      (Except.error CmdError.DatamanageForbiddenError, s) ∧
    UpdateDatamanageCommand.run s known_users user_id model_id props
        override_columns update_fails =
      (Except.error CmdError.DatamanageForbiddenError, s) ∧
    ExportDatamanageCommand.run s user_id [model_id] =
      (Except.error CmdError.DatamanageForbiddenError, s) := by
  have hraise : raise_for_ownership_raises m user_id = true := by
    simp [raise_for_ownership_raises, hown]
  refine ⟨?_, ?_, ?_⟩
  · unfold DeleteDatamanageCommand.run DeleteDatamanageCommand.validate
    rw [hfind]
    dsimp only
    simp [hraise]
  · unfold UpdateDatamanageCommand.run UpdateDatamanageCommand.validate
    rw [hfind]
    dsimp only
    simp [hraise]
  · unfold ExportDatamanageCommand.run
    simp [hfind, hraise]

/-- Claim C2 (witness): user 9 does not own dataset 1 (owned by 7); all
three commands refuse with the forbidden error and change nothing. -/
theorem C2_ownership_validated_witness :
    DeleteDatamanageCommand.run
        { committed := [{ id := 1, database_id := 5, table_name := "t",
                          owner_ids := [7], columns := [], metrics := [] }],
          staged := [{ id := 1, database_id := 5, table_name := "t",
                       owner_ids := [7], columns := [], metrics := [] }] }
        9 1 none =
      (Except.error CmdError.DatamanageForbiddenError,
       { committed := [{ id := 1, database_id := 5, table_name := "t",
                         owner_ids := [7], columns := [], metrics := [] }],
         staged := [{ id := 1, database_id := 5, table_name := "t",
                      owner_ids := [7], columns := [], metrics := [] }] }) :=
  (C2_ownership_validated
      { committed := [{ id := 1, database_id := 5, table_name := "t",
                        owner_ids := [7], columns := [], metrics := [] }],
        staged := [{ id := 1, database_id := 5, table_name := "t",
                     owner_ids := [7], columns := [], metrics := [] }] }
      [] 9 1
      { owners := none, database := none, table_name := none,
        columns := none, metrics := none } false none false
      { id := 1, database_id := 5, table_name := "t", owner_ids := [7],
        columns := [], metrics := [] }
      (by rfl) (by decide)).1

/-- Claim C3: `DeleteDatamanageCommand.run` raises the not-found error when
no dataset has the given id, the forbidden error when the requester lacks
ownership (both leaving the session untouched); when the mapper delete fails
with either caught exception it rolls the session back to the committed
store and raises the delete-failed error, leaving the stored state
unchanged; otherwise it commits the staged deletion and returns the deleted
model. -/
theorem C3_delete_run_cases (s : DbSession) (user_id model_id : Nat)
    (mapper_failure : Option MapperErr) :
    (DatamanageDAO.find_by_id s model_id = none →
      DeleteDatamanageCommand.run s user_id model_id mapper_failure =
        (Except.error CmdError.DatamanageNotFoundError, s)) ∧
    (∀ m, DatamanageDAO.find_by_id s model_id = some m →
      user_id ∉ m.owner_ids →
      DeleteDatamanageCommand.run s user_id model_id mapper_failure =
        (Except.error CmdError.DatamanageForbiddenError, s)) ∧
    (∀ m e, DatamanageDAO.find_by_id s model_id = some m →
      user_id ∈ m.owner_ids → mapper_failure = some e →
      DeleteDatamanageCommand.run s user_id model_id mapper_failure =
        (Except.error CmdError.DatamanageDeleteFailedError,
         { committed := s.committed, staged := s.committed }) ∧
      (DeleteDatamanageCommand.run s user_id model_id mapper_failure).2.committed
        = s.committed) ∧
    (∀ m, DatamanageDAO.find_by_id s model_id = some m →
      user_id ∈ m.owner_ids → mapper_failure = none →
      DeleteDatamanageCommand.run s user_id model_id mapper_failure =
        (Except.ok m,
         { committed := s.staged.filter (fun r => r.id != m.id),
           staged := s.staged.filter (fun r => r.id != m.id) })) := by
  refine ⟨?_, ?_, ?_, ?_⟩
  · intro hfind
    unfold DeleteDatamanageCommand.run DeleteDatamanageCommand.validate
    rw [hfind]
  · intro m hfind hown
    have hraise : raise_for_ownership_raises m user_id = true := by
      simp [raise_for_ownership_raises, hown]
    unfold DeleteDatamanageCommand.run DeleteDatamanageCommand.validate
    rw [hfind]
    dsimp only
    simp [hraise]
  · intro m e hfind hown hfail
    have hraise : raise_for_ownership_raises m user_id = false := by
      simp [raise_for_ownership_raises, hown]
    have hrun : DeleteDatamanageCommand.run s user_id model_id mapper_failure =
        (Except.error CmdError.DatamanageDeleteFailedError,
         { committed := s.committed, staged := s.committed }) := by
      unfold DeleteDatamanageCommand.run DeleteDatamanageCommand.validate
      rw [hfind]
      dsimp only
      simp [hraise, hfail, DatamanageDAO.delete, DbSession.rollback]
    exact ⟨hrun, by rw [hrun]⟩
  · intro m hfind hown hfail
    have hraise : raise_for_ownership_raises m user_id = false := by
      simp [raise_for_ownership_raises, hown]
    unfold DeleteDatamanageCommand.run DeleteDatamanageCommand.validate
    rw [hfind]
    dsimp only
    simp [hraise, hfail, DatamanageDAO.delete, DbSession.commit]

/-- Claim C3 (witness): deleting the dataset as its owner commits the staged
removal and returns the deleted model; deleting it while the mapper raises
keeps the store intact and answers the delete-failed error. -/
theorem C3_delete_run_cases_witness :
    DeleteDatamanageCommand.run
        { committed := [{ id := 1, database_id := 5, table_name := "t",
                          owner_ids := [7], columns := [], metrics := [] }],
          staged := [{ id := 1, database_id := 5, table_name := "t",
                       owner_ids := [7], columns := [], metrics := [] }] }
        7 1 none =
      (Except.ok { id := 1, database_id := 5, table_name := "t",
                   owner_ids := [7], columns := [], metrics := [] },
       { committed := [], staged := [] }) := by
  have h := (C3_delete_run_cases
      { committed := [{ id := 1, database_id := 5, table_name := "t",
                        owner_ids := [7], columns := [], metrics := [] }],
        staged := [{ id := 1, database_id := 5, table_name := "t",
                     owner_ids := [7], columns := [], metrics := [] }] }
      7 1 none).2.2.2
      { id := 1, database_id := 5, table_name := "t", owner_ids := [7],
        columns := [], metrics := [] }
      (by rfl) (by decide) rfl
  simpa using h

/-- Claim C7: `load_data` gzip-decompresses the downloaded stream if and only
if the data URI ends with ".gz", before the stream is parsed as CSV and the
frame is written to the backing table. -/
theorem C7_load_data_gzip (urlopen : String → List Nat)
    (gunzip : List Nat → List Nat) (read_csv : List Nat → List (List String))
    (data_uri table_name : String) :
    (ends_with data_uri ".gz" = true →
      load_data urlopen gunzip read_csv data_uri table_name =
        (table_name, read_csv (gunzip (urlopen data_uri)))) ∧
    (ends_with data_uri ".gz" = false →
      load_data urlopen gunzip read_csv data_uri table_name =
        (table_name, read_csv (urlopen data_uri))) := by
  constructor <;> intro h <;> simp [load_data, h]

/-- Claim C7 (witness): a ".gz" URI is decompressed before parsing, a plain
".csv" URI is not. -/
theorem C7_load_data_gzip_witness :
    load_data (fun _ => [1, 2]) (fun l => 0 :: l) (fun l => [l.map toString])
        "data.csv.gz" "tbl" =
      ("tbl", [["0", "1", "2"]]) ∧
    load_data (fun _ => [1, 2]) (fun l => 0 :: l) (fun l => [l.map toString])
        "data.csv" "tbl" =
      ("tbl", [["1", "2"]]) := by
  constructor
  · have h := (C7_load_data_gzip (fun _ => [1, 2]) (fun l => 0 :: l)
        (fun l => [l.map toString]) "data.csv.gz" "tbl").1 (by decide)
    rw [h]
    rfl
  · have h := (C7_load_data_gzip (fun _ => [1, 2]) (fun l => 0 :: l)
        (fun l => [l.map toString]) "data.csv" "tbl").2 (by decide)
    rw [h]
    rfl

/-- Claim C10: for an import config whose uuid matches an existing row,
`import_datamanage` with `overwrite = false` returns that row unchanged: the
row store is untouched (no fields updated, no owner appended) and no CSV
data is loaded, whatever the remaining arguments are. -/
theorem C10_no_overwrite_frame {α : Type} (dumps : α → String)
    (rows : List StoredDatamanage) (config : DmConfig α)
    (force_data : Bool) (g_user : Option Nat) (table_exists : Bool)
    (existing : StoredDatamanage)
    (hfind : rows.find? (fun r => r.uuid == config.uuid) = some existing) :
    import_datamanage dumps rows config false force_data g_user table_exists =
      (existing, rows, []) := by
  unfold import_datamanage
  rw [hfind]
  rfl

/-- Claim C10 (witness): importing a config whose uuid (42) is already
present, without overwrite, hands back the stored row and changes nothing —
the current user (9) is not appended to its owners and no table is loaded
even though a data URI is present and the table is missing. -/
theorem C10_no_overwrite_frame_witness :
    import_datamanage (fun b => cond b "true" "false")
        [{ id := 1, uuid := 42, table_name := "t", params := none,
           template_params := none, extra := none, columns := [],
           metrics := [], owner_ids := [7] }]
        { uuid := 42, table_name := "t", params := some true,
          template_params := none, extra := none, columns := [],
          metrics := [], data := some "http://x/d.csv" }
        false true (some 9) false =
      ({ id := 1, uuid := 42, table_name := "t", params := none,
         template_params := none, extra := none, columns := [],
         metrics := [], owner_ids := [7] },
       [{ id := 1, uuid := 42, table_name := "t", params := none,
          template_params := none, extra := none, columns := [],
          metrics := [], owner_ids := [7] }],
       []) :=
  C10_no_overwrite_frame (fun b => cond b "true" "false")
    [{ id := 1, uuid := 42, table_name := "t", params := none,
       template_params := none, extra := none, columns := [],
       metrics := [], owner_ids := [7] }]
    { uuid := 42, table_name := "t", params := some true,
      template_params := none, extra := none, columns := [],
      metrics := [], data := some "http://x/d.csv" }
    true (some 9) false
    { id := 1, uuid := 42, table_name := "t", params := none,
      template_params := none, extra := none, columns := [],
      metrics := [], owner_ids := [7] }
    (by rfl)

/-- Claim C8: the sync list is `["columns", "metrics"]` exactly when
overwrite is requested (and empty otherwise); accordingly, overwriting an
existing dataset replaces its columns and metrics with exactly the (encoded)
payload collections — entries absent from the payload are removed — while
without overwrite the stored collections are left untouched. -/
theorem C8_overwrite_sync {α : Type} (dumps : α → String)
    (rows : List StoredDatamanage) (config : DmConfig α)
    (force_data : Bool) (g_user : Option Nat) (table_exists : Bool)
    (existing : StoredDatamanage)
    (hfind : rows.find? (fun r => r.uuid == config.uuid) = some existing) :
    (import_sync_list true = ["columns", "metrics"] ∧
     import_sync_list false = []) ∧
    ((import_datamanage dumps rows config true force_data g_user
          table_exists).1.columns =
        config.columns.map (encode_column dumps) ∧
     (import_datamanage dumps rows config true force_data g_user
          table_exists).1.metrics =
        config.metrics.map (encode_column dumps)) ∧
    ((import_datamanage dumps rows config false force_data g_user
          table_exists).1.columns = existing.columns ∧
     (import_datamanage dumps rows config false force_data g_user
          table_exists).1.metrics = existing.metrics) := by
  refine ⟨⟨rfl, rfl⟩, ?_, ?_⟩
  · unfold import_datamanage
    rw [hfind]
    dsimp only
    rw [if_neg (by decide)]
    unfold import_datamanage_body
    dsimp only [encode_config, import_sync_list]
    unfold import_from_dict
    dsimp only
    rw [hfind]
    dsimp only
    cases g_user <;> simp
  · unfold import_datamanage
    rw [hfind]
    dsimp only
    rw [if_pos (by decide)]
    exact ⟨rfl, rfl⟩

/-- Claim C8 (witness): overwriting a stored dataset (uuid 42) holding a
column "old" with a payload holding only "c1" leaves exactly the encoded
"c1"; importing the same payload without overwrite keeps "old". -/
theorem C8_overwrite_sync_witness :
    (import_datamanage (fun b => cond b "true" "false")
        [{ id := 1, uuid := 42, table_name := "t", params := none,
           template_params := none, extra := none,
           columns := [{ name := "old", extra := none }],
           metrics := [], owner_ids := [7] }]
        { uuid := 42, table_name := "t", params := none,
          template_params := none, extra := none,
          columns := [{ name := "c1", extra := some true }],
          metrics := [], data := none }
        true false none true).1.columns =
      [{ name := "c1", extra := some "true" }] ∧
    (import_datamanage (fun b => cond b "true" "false")
        [{ id := 1, uuid := 42, table_name := "t", params := none,
           template_params := none, extra := none,
           columns := [{ name := "old", extra := none }],
           metrics := [], owner_ids := [7] }]
        { uuid := 42, table_name := "t", params := none,
          template_params := none, extra := none,
          columns := [{ name := "c1", extra := some true }],
          metrics := [], data := none }
        false false none true).1.columns =
      [{ name := "old", extra := none }] := by
  have h := C8_overwrite_sync (fun b => cond b "true" "false")
      [{ id := 1, uuid := 42, table_name := "t", params := none,
         template_params := none, extra := none,
         columns := [{ name := "old", extra := none }],
         metrics := [], owner_ids := [7] }]
      { uuid := 42, table_name := "t", params := none,
        template_params := none, extra := none,
        columns := [{ name := "c1", extra := some true }],
        metrics := [], data := none }
      false none true
      { id := 1, uuid := 42, table_name := "t", params := none,
        template_params := none, extra := none,
        columns := [{ name := "old", extra := none }],
        metrics := [], owner_ids := [7] }
      (by rfl)
  exact ⟨h.2.1.1, h.2.2.1⟩

/-- Decoding inverts encoding on an optional field, for any codec that is a
left-inverse pair with non-empty encodings. -/
theorem decode_field_encode {α : Type} (dumps : α → String)
    (loads : String → Option α) (hinv : ∀ v, loads (dumps v) = some v)
    (hne : ∀ v, dumps v ≠ "") (o : Option α) :
    decode_field loads (o.map dumps) = o.map (fun v => ExportVal.val v) := by
  cases o with
  | none => rfl
  | some v =>
    show decode_field loads (some (dumps v)) = some (ExportVal.val v)
    unfold decode_field
    dsimp only
    rw [if_neg (by simpa using hne v), hinv v]

/-- Claim C5: export/import field mapping round-trips.  The importer
json-encodes exactly the fields `params`, `template_params` and `extra` (and
the `extra` of each column and metric) before storage, the exporter
json-decodes the same fields, and for any codec for which decoding inverts
encoding (the stored values are valid JSON encodings), exporting the record
produced by importing a fresh config yields back the original field values. -/
theorem C5_export_import_roundtrip {α : Type} (dumps : α → String)
    (loads : String → Option α)
    (hinv : ∀ v, loads (dumps v) = some v)
    (hne : ∀ v, dumps v ≠ "")
    (rows : List StoredDatamanage) (config : DmConfig α)
    (overwrite force_data : Bool) (g_user : Option Nat) (table_exists : Bool)
    (hnew : rows.find? (fun r => r.uuid == config.uuid) = none) :
    export_payload_fields loads
        (import_datamanage dumps rows config overwrite force_data g_user
          table_exists).1 =
      { params := config.params.map (fun v => ExportVal.val v)
        template_params := config.template_params.map (fun v => ExportVal.val v)
        extra := config.extra.map (fun v => ExportVal.val v)
        columns := config.columns.map
          (fun c => (c.name, c.extra.map (fun v => ExportVal.val v)))
        metrics := config.metrics.map
          (fun c => (c.name, c.extra.map (fun v => ExportVal.val v))) } := by
  have hcol : ∀ c : ColumnRec α,
      decode_column loads (encode_column dumps c) =
        (c.name, c.extra.map (fun v => ExportVal.val v)) := by
    intro c
    unfold decode_column encode_column
    dsimp only
    rw [decode_field_encode dumps loads hinv hne]
  unfold import_datamanage
  rw [hnew]
  unfold import_datamanage_body
  dsimp only [encode_config, import_sync_list]
  unfold import_from_dict
  dsimp only
  rw [hnew]
  dsimp only
  cases g_user <;>
    simp [export_payload_fields, decode_field_encode dumps loads hinv hne,
      hcol, List.map_map, Function.comp]

/-- Claim C5 (witness): a Boolean codec with `loads ∘ dumps = some` — a
fresh config with `params = true`, a column extra `false` and a metric extra
`true` comes back from export with exactly those values. -/
theorem C5_export_import_roundtrip_witness :
    export_payload_fields
        (fun st => if st == "true" then some true
                   else if st == "false" then some false else none)
        (import_datamanage (fun b => cond b "true" "false") []
          { uuid := 42, table_name := "t", params := some true,
            template_params := none, extra := none,
            columns := [{ name := "c1", extra := some false }],
            metrics := [{ name := "m1", extra := some true }],
            data := none }
          false false (some 9) true).1 =
      { params := some (ExportVal.val true)
        template_params := none
        extra := none
        columns := [("c1", some (ExportVal.val false))]
        metrics := [("m1", some (ExportVal.val true))] } :=
  C5_export_import_roundtrip (fun b => cond b "true" "false")
    (fun st => if st == "true" then some true
               else if st == "false" then some false else none)
    (fun v => by cases v <;> rfl)
    (fun v => by cases v <;> decide)
    []
    { uuid := 42, table_name := "t", params := some true,
      template_params := none, extra := none,
      columns := [{ name := "c1", extra := some false }],
      metrics := [{ name := "m1", extra := some true }],
      data := none }
    false false (some 9) true
    (by rfl)
